import Mathlib

/-
Verification of the Rust boot-services pool allocator
(MsCorePkg/Crates/RustBootServicesAllocatorDxe/src/lib.rs).

The embedding targets the 64-bit UEFI platforms the crate is built for:
`usize` is 64 bits wide, so machine integers are modelled as `Nat` with
explicit `2 ^ 64` bounds where overflow matters.  Raw pointers are
modelled as natural-number addresses.  The external Pool Source
(EFI boot services `AllocatePool` / `FreePool`) is modelled as a pair of
state-passing functions over an abstract pool-state type.
-/

namespace UefiAlloc

/-- `isize::MAX` on the 64-bit targets: upper bound used by
`Layout::from_size_align`. -/
def isizeMax : Nat := 2 ^ 63 - 1

/-- `usize::checked_add`: `none` models arithmetic overflow of a 64-bit
unsigned addition. -/
def checkedAdd (a b : Nat) : Option Nat :=
  if a + b < 2 ^ 64 then some (a + b) else none

/-- `usize::is_power_of_two`.  The powers of two representable in a 64-bit
`usize` are exactly `2 ^ k` for `k < 64`, so the test enumerates them. -/
def isPow2 (n : Nat) : Bool :=
  (List.range 64).any fun k => n == 2 ^ k

/-- `core::alloc::Layout`: a size / alignment pair.  The Rust type's
invariants (alignment a power of two, size within `isize::MAX` after
rounding) are carried as hypotheses where a theorem needs them. -/
structure Layout where
  size : Nat
  align : Nat
deriving DecidableEq, Repr

/-- `Layout::max_size_for_align`: the largest size accepted together with
the given alignment. -/
def maxSizeForAlign (align : Nat) : Nat := isizeMax - (align - 1)

/-- `Layout::from_size_align`: rejects a non-power-of-two alignment and a
size exceeding `isize::MAX - (align - 1)`. -/
def Layout.fromSizeAlign (size align : Nat) : Option Layout :=
  if isPow2 align = false then none
  else if maxSizeForAlign align < size then none
  else some ⟨size, align⟩

/-- `Layout::padding_needed_for`: bytes needed after `size` to reach the
next multiple of `align` (the masked round-up the Rust code performs,
written with `%` since `x & !(a-1) = x - x % a` for a power of two `a`). -/
def Layout.paddingNeededFor (l : Layout) (align : Nat) : Nat :=
  let lenRoundedUp := (l.size + align - 1) - (l.size + align - 1) % align
  lenRoundedUp - l.size

/-- `Layout::extend`: the layout of `l` followed by `next` (with padding
for `next`'s alignment), together with the byte offset at which `next`
is placed.  Checked arithmetic throughout; `none` models `LayoutError`. -/
def Layout.extend (l next : Layout) : Option (Layout × Nat) :=
  let newAlign := max l.align next.align
  let pad := l.paddingNeededFor next.align
  match checkedAdd l.size pad with
  | none => none
  | some offset =>
    match checkedAdd offset next.size with
    | none => none
    | some newSize =>
      match Layout.fromSizeAlign newSize newAlign with
      | none => none
      | some layout => some (layout, offset)

/-- `ALLOC_TRACKER_SIG`: the magic constant written into every tracker. -/
def ALLOC_TRACKER_SIG : Nat := 0x706F6F6C

/-- `AllocationTracker`: the in-band record written after a slow-path
allocation (`signature: u32`, `orig_ptr: *mut c_void`). -/
structure AllocationTracker where
  signature : Nat
  orig_ptr : Nat
deriving DecidableEq, Repr

/-- `Layout::new::<AllocationTracker>()` on the 64-bit targets:
`size_of = 16` (u32 + padding + 8-byte pointer), `align_of = 8`. -/
def trackerLayout : Layout := ⟨16, 8⟩

/-- The `EFI_BOOT_SERVICES_DATA` memory-type constant passed to every
`allocate_pool` call. -/
def BOOT_SERVICES_DATA : Nat := 4

/-- The EFI boot-services table, restricted to the two entries the
allocator uses.  `σ` is the abstract state of the Pool Source.
`allocatePool memType size` returns `some (ptr, newState)` on
`Status::SUCCESS` and `none` on any other status; `freePool ptr` returns
the success flag of its `Status` together with the new state. -/
structure BootServices (σ : Type) where
  allocatePool : Nat → Nat → σ → Option (Nat × σ)
  freePool : Nat → σ → Bool × σ

/-- `BootServicesAllocator`: holds the optional pointer to the boot
services table (`None` until `init`). -/
structure BootServicesAllocator (σ : Type) where
  boot_services : Option (BootServices σ)

/-- `BootServicesAllocator::new()`. -/
def BootServicesAllocator.new (σ : Type) : BootServicesAllocator σ := ⟨none⟩

/-- `BootServicesAllocator::init`: unconditionally stores
`Some(boot_services)`. -/
def BootServicesAllocator.init (_a : BootServicesAllocator σ) (bs : BootServices σ) :
    BootServicesAllocator σ := ⟨some bs⟩

/-- The portion of memory the allocator itself writes: a log of tracker
stores, most recent first.  Only `AllocationTracker` values are ever
written by the code, so the heap maps addresses to trackers. -/
abbrev Mem := List (Nat × AllocationTracker)

/-- A tracker store at `addr` (the `tracker.signature = ...;
tracker.orig_ptr = ...;` writes). -/
def memWrite (m : Mem) (addr : Nat) (t : AllocationTracker) : Mem := (addr, t) :: m

/-- Reading a tracker back from `addr`; `none` when no tracker was ever
written there (the corresponding Rust read would return garbage). -/
def memRead (m : Mem) (addr : Nat) : Option AllocationTracker := m.lookup addr

/-- `<*mut u8>::align_offset`: the smallest `m` with `(p + m) % a = 0`
(stride one). -/
def alignOffset (p a : Nat) : Nat := (a - p % a) % a

/-- `BootServicesAllocator::boot_services_alloc`.  Takes the pool state
and the tracker heap, returns the pointer handed to the caller (0 models
the null failure sentinel) plus the updated pool state and heap. -/
def boot_services_alloc (a : BootServicesAllocator σ) (layout : Layout)
    (pool : σ) (mem : Mem) : Nat × σ × Mem :=
  match a.boot_services with
  | none => (0, pool, mem)
  | some bs =>
    if layout.align ≤ 8 then
      match bs.allocatePool BOOT_SERVICES_DATA layout.size pool with
      | some (ptr, pool') => (ptr, pool', mem)
      | none => (0, pool, mem)
    else
      match layout.extend trackerLayout with
      | none => (0, pool, mem)
      | some (expandedLayout, trackingOffset) =>
        let expandedSize := expandedLayout.size + expandedLayout.align
        match bs.allocatePool BOOT_SERVICES_DATA expandedSize pool with
        | none => (0, pool, mem)
        | some (origPtr, pool') =>
          let finalPtr := origPtr + alignOffset origPtr expandedLayout.align
          (finalPtr, pool',
            memWrite mem (finalPtr + trackingOffset) ⟨ALLOC_TRACKER_SIG, origPtr⟩)

/-- `BootServicesAllocator::boot_services_dealloc`, modelled with debug
assertions enabled: `none` is a `debug_assert_eq!` signature-mismatch
abort, and reading an address no tracker was written to is likewise
undefined (`none`). `some pool'` is a normal return with the new pool
state; the `Status` of `free_pool` is discarded (`let _ = ...`). -/
def boot_services_dealloc (a : BootServicesAllocator σ) (ptr : Nat) (layout : Layout)
    (pool : σ) (mem : Mem) : Option σ :=
  match a.boot_services with
  | none => some pool
  | some bs =>
    if layout.align ≤ 8 then
      some (bs.freePool ptr pool).2
    else
      match layout.extend trackerLayout with
      | none => some pool
      | some (_, trackingOffset) =>
        match memRead mem (ptr + trackingOffset) with
        | none => none
        | some tracker =>
          if tracker.signature = ALLOC_TRACKER_SIG then
            some (bs.freePool tracker.orig_ptr pool).2
          else none

/-- The mocked, fully tracked Pool Source from the crate's test module:
the state is the list of live pool pointers. `allocatePool` hands out the
fixed address `addr` (the theorems quantify over it) and records it;
`freePool` reports whether the pointer was live and removes it. -/
abbrev MockState := List Nat

/-- Mock boot-services table over `MockState` (see [`MockState`]). -/
def mockBS (addr : Nat) : BootServices MockState where
  allocatePool := fun _ _ live => some (addr, addr :: live)
  freePool := fun p live => (live.contains p, live.erase p)

/-- Variant of [`mockBS`] whose `freePool` always reports a failing
`Status` while performing the same state update: used to show the status
is unobservable through `boot_services_dealloc`. -/
def mockBSFailStatus (addr : Nat) : BootServices MockState where
  allocatePool := fun _ _ live => some (addr, addr :: live)
  freePool := fun p live => (false, live.erase p)

/-- The operations clients can perform on the global allocator. -/
inductive AllocatorOp where
  | init (bs : Nat)
  | alloc (layout : Layout)
  | dealloc (ptr : Nat) (layout : Layout)
deriving DecidableEq, Repr

/-- Effect of one operation on the configuration state
(`boot_services : Option<*mut BootServices>`, the handle modelled as an
address).  `init` stores `Some` of its argument unconditionally
(line 72 of the source); `boot_services_alloc` and
`boot_services_dealloc` take `&self` and cannot write the field, so they
leave it unchanged. -/
def configStep : Option Nat → AllocatorOp → Option Nat
  | _, AllocatorOp.init bs => some bs
  | c, AllocatorOp.alloc _ => c
  | c, AllocatorOp.dealloc _ _ => c

/-! ### Helper lemmas -/

/-- Everything `Layout.extend l next = some (exp, off)` implies about the
pieces: the offset and expanded size/alignment, the power-of-two check
that `from_size_align` performed, and the `isize::MAX` size bound. -/
theorem Layout.extend_eq_some {l next exp : Layout} {off : Nat}
    (h : l.extend next = some (exp, off)) :
    off = l.size + l.paddingNeededFor next.align ∧
    exp.size = off + next.size ∧
    exp.align = max l.align next.align ∧
    isPow2 (max l.align next.align) = true ∧
    exp.size ≤ maxSizeForAlign exp.align ∧
    off + next.size < 2 ^ 64 := by
  simp only [Layout.extend] at h
  cases hc1 : checkedAdd l.size (l.paddingNeededFor next.align) with
  | none => simp [hc1] at h
  | some offset =>
    simp only [hc1] at h
    cases hc2 : checkedAdd offset next.size with
    | none => simp [hc2] at h
    | some newSize =>
      simp only [hc2] at h
      cases hc3 : Layout.fromSizeAlign newSize (max l.align next.align) with
      | none => simp [hc3] at h
      | some lay =>
        simp only [hc3] at h
        have hlay : lay = exp ∧ offset = off := by simpa using h
        have h1 : l.size + l.paddingNeededFor next.align = offset ∧
            l.size + l.paddingNeededFor next.align < 2 ^ 64 := by
          unfold checkedAdd at hc1
          split_ifs at hc1 with hh
          exact ⟨by simpa using hc1, hh⟩
        have h2 : offset + next.size = newSize ∧ offset + next.size < 2 ^ 64 := by
          unfold checkedAdd at hc2
          split_ifs at hc2 with hh
          exact ⟨by simpa using hc2, hh⟩
        have h3 : isPow2 (max l.align next.align) = true ∧
            newSize ≤ maxSizeForAlign (max l.align next.align) ∧
            lay = ⟨newSize, max l.align next.align⟩ := by
          unfold Layout.fromSizeAlign at hc3
          split_ifs at hc3 with hp hs
          exact ⟨by simpa using hp, by omega, by simpa using hc3.symm⟩
        obtain ⟨rfl, rfl⟩ := hlay
        obtain ⟨hp, hs, rfl⟩ := h3
        exact ⟨by omega, by simp; omega, by simp, hp, by simpa using hs, h2.2⟩

/-- `isPow2 n = true` exactly when `n` is a 64-bit power of two. -/
theorem isPow2_iff {n : Nat} : isPow2 n = true ↔ ∃ k, k < 64 ∧ n = 2 ^ k := by
  unfold isPow2
  simp [List.any_eq_true, List.mem_range]

/-- A power of two is positive. -/
theorem isPow2_pos {n : Nat} (h : isPow2 n = true) : 0 < n := by
  obtain ⟨k, -, rfl⟩ := isPow2_iff.mp h
  exact Nat.pos_pow_of_pos k (by omega)

/-- `align_offset` is bounded by the alignment. -/
theorem alignOffset_lt {a : Nat} (p : Nat) (ha : 0 < a) : alignOffset p a < a :=
  Nat.mod_lt _ ha

/-- Adding `align_offset` reaches the next multiple of the alignment. -/
theorem add_alignOffset_mod (p a : Nat) (ha : 0 < a) :
    (p + alignOffset p a) % a = 0 := by
  unfold alignOffset
  rcases eq_or_ne (p % a) 0 with h0 | h0
  · simp [h0, Nat.add_mod, Nat.mod_self]
  · have hlt : p % a < a := Nat.mod_lt _ ha
    have hsub : (a - p % a) % a = a - p % a := Nat.mod_eq_of_lt (by omega)
    have hdm := Nat.div_add_mod p a
    have he : p + (a - p % a) = a * (p / a + 1) := by
      rw [Nat.mul_add, Nat.mul_one]
      omega
    rw [hsub, he, Nat.mul_mod_right]

/-- The single global allocator after `init` with the mock Pool Source
(the configuration the crate's own tests exercise). -/
def mockAllocator (addr : Nat) : BootServicesAllocator MockState :=
  BootServicesAllocator.init (BootServicesAllocator.new MockState) (mockBS addr)

/-- States that the size passed to the Pool Source on the slow path,
`expanded_layout.size() + expanded_layout.align()`, fits in a `usize`,
so the (release-mode wrapping) addition never wraps. -/
def expandedSizeNoWrap : Option (Layout × Nat) → Prop
  | none => True
  | some (exp, _) => exp.size + exp.align < 2 ^ 64

/-! ### Claim theorems -/

/-- C7: every `allocate` or `deallocate` call made before `init` returns
the null sentinel resp. is a no-op: the pool state and tracker heap are
untouched and the absent boot-services handle is never used. -/
theorem C7_uninitialized_noop (σ : Type) (l : Layout) (ptr : Nat) (pool : σ) (mem : Mem) :
    boot_services_alloc (BootServicesAllocator.new σ) l pool mem = (0, pool, mem) ∧
    boot_services_dealloc (BootServicesAllocator.new σ) ptr l pool mem = some pool := by
  exact ⟨rfl, rfl⟩

/-- C5: on the fast path (`alignment ≤ 8`) of a bound allocator,
`allocate` returns exactly the Pool Source's pointer for the requested
size (failure propagating unchanged as the null sentinel), and
`deallocate` forwards the caller's pointer unmodified to `free_pool`. -/
theorem C5_fast_path_delegates (σ : Type) (bs : BootServices σ) (l : Layout)
    (ptr p : Nat) (pool pool' : σ) (mem : Mem) (h8 : l.align ≤ 8) :
    (bs.allocatePool BOOT_SERVICES_DATA l.size pool = some (p, pool') →
      boot_services_alloc ⟨some bs⟩ l pool mem = (p, pool', mem)) ∧
    (bs.allocatePool BOOT_SERVICES_DATA l.size pool = none →
      boot_services_alloc ⟨some bs⟩ l pool mem = (0, pool, mem)) ∧
    boot_services_dealloc ⟨some bs⟩ ptr l pool mem = some (bs.freePool ptr pool).2 := by
  refine ⟨?_, ?_, ?_⟩
  · intro h
    simp [boot_services_alloc, h8, h]
  · intro h
    simp [boot_services_alloc, h8, h]
  · simp [boot_services_dealloc, h8]

/-- C3: on every successful slow-path allocation the tracker written at
`final_pointer + tracking_offset` carries the magic signature and the
base pointer the Pool Source returned. -/
theorem C3_tracker_written (σ : Type) (bs : BootServices σ) (l exp : Layout)
    (off b : Nat) (pool pool' : σ) (mem : Mem)
    (h8 : 8 < l.align)
    (hext : l.extend trackerLayout = some (exp, off))
    (hpool : bs.allocatePool BOOT_SERVICES_DATA (exp.size + exp.align) pool = some (b, pool')) :
    memRead (boot_services_alloc ⟨some bs⟩ l pool mem).2.2
        ((boot_services_alloc ⟨some bs⟩ l pool mem).1 + off) =
      some ⟨ALLOC_TRACKER_SIG, b⟩ := by
  have h8' : ¬ l.align ≤ 8 := by omega
  simp [boot_services_alloc, h8', hext, hpool, memRead, memWrite, List.lookup]

/-- C4: every slow-path `deallocate` on a bound allocator recomputes the
tracking offset with the same `Layout::extend` computation used at
allocation time, reads the tracker at `pointer + tracking_offset`,
checks `signature == ALLOC_TRACKER_SIG` (the `debug_assert_eq!`), and
frees exactly the tracker's original pointer. -/
theorem C4_slow_dealloc_frees_tracked (σ : Type) (bs : BootServices σ) (l exp : Layout)
    (off ptr : Nat) (pool : σ) (mem : Mem) (tracker : AllocationTracker)
    (h8 : 8 < l.align)
    (hext : l.extend trackerLayout = some (exp, off))
    (hmem : memRead mem (ptr + off) = some tracker) :
    boot_services_dealloc ⟨some bs⟩ ptr l pool mem =
      if tracker.signature = ALLOC_TRACKER_SIG then
        some (bs.freePool tracker.orig_ptr pool).2
      else none := by
  have h8' : ¬ l.align ≤ 8 := by omega
  simp [boot_services_dealloc, h8', hext, hmem]

/-- C9: `deallocate` discards the `Status` of `free_pool` on both paths:
two Pool Sources whose `free_pool` differ only in the status they report
are indistinguishable through `boot_services_dealloc`. -/
theorem C9_free_status_discarded (σ : Type) (bs₁ bs₂ : BootServices σ) (l : Layout)
    (ptr : Nat) (pool : σ) (mem : Mem)
    (hsame : ∀ p s, (bs₁.freePool p s).2 = (bs₂.freePool p s).2) :
    boot_services_dealloc ⟨some bs₁⟩ ptr l pool mem =
      boot_services_dealloc ⟨some bs₂⟩ ptr l pool mem := by
  by_cases h8 : l.align ≤ 8
  · simp [boot_services_dealloc, h8, hsame]
  · cases hext : l.extend trackerLayout with
    | none => simp [boot_services_dealloc, h8, hext]
    | some x =>
      obtain ⟨e, toff⟩ := x
      cases hm : memRead mem (ptr + toff) with
      | none => simp [boot_services_dealloc, h8, hext, hm]
      | some tracker => simp [boot_services_dealloc, h8, hext, hm, hsame]

/-- C2: on the slow path (power-of-two `alignment > 8`), a non-null
pointer returned by a bound allocator is a multiple of the requested
alignment. -/
theorem C2_slow_path_alignment (σ : Type) (bs : BootServices σ) (l : Layout)
    (pool : σ) (mem : Mem)
    (hpow : isPow2 l.align = true) (h8 : 8 < l.align)
    (hnn : (boot_services_alloc ⟨some bs⟩ l pool mem).1 ≠ 0) :
    (boot_services_alloc ⟨some bs⟩ l pool mem).1 % l.align = 0 := by
  have h8' : ¬ l.align ≤ 8 := by omega
  cases hext : l.extend trackerLayout with
  | none => simp [boot_services_alloc, h8', hext]
  | some x =>
    obtain ⟨exp, off⟩ := x
    cases hpl : bs.allocatePool BOOT_SERVICES_DATA (exp.size + exp.align) pool with
    | none => simp [boot_services_alloc, h8', hext, hpl]
    | some y =>
      obtain ⟨b, pool'⟩ := y
      have hmax : exp.align = l.align := by
        have hal := (Layout.extend_eq_some hext).2.2.1
        rw [hal]
        have : trackerLayout.align = 8 := rfl
        rw [this]
        exact Nat.max_eq_left (by omega)
      have hgoal := add_alignOffset_mod b l.align (by omega)
      simp [boot_services_alloc, h8', hext, hpl]
      rw [hmax]
      exact hgoal

/-- C6: when extending the layout with the tracker would overflow,
`allocate` returns the null sentinel without touching the Pool Source;
when the extension succeeds, the `expanded_size` addition stays below
`2 ^ 64`, so no wrapped size is ever passed to the Pool Source. -/
theorem C6_no_overflow (σ : Type) (bs : BootServices σ) (l : Layout)
    (pool : σ) (mem : Mem) (h8 : 8 < l.align) :
    (l.extend trackerLayout = none →
      boot_services_alloc ⟨some bs⟩ l pool mem = (0, pool, mem)) ∧
    expandedSizeNoWrap (l.extend trackerLayout) := by
  have h8' : ¬ l.align ≤ 8 := by omega
  constructor
  · intro hext
    simp [boot_services_alloc, h8', hext]
  · cases hext : l.extend trackerLayout with
    | none => trivial
    | some x =>
      obtain ⟨exp, off⟩ := x
      obtain ⟨-, hsz, hal, hpow, hle, -⟩ := Layout.extend_eq_some hext
      obtain ⟨k, hk, h2k⟩ := isPow2_iff.mp hpow
      rw [← hal] at h2k
      have hbound : exp.align ≤ 2 ^ 63 := by
        rw [h2k]
        exact Nat.pow_le_pow_right (by omega) (by omega)
      have h63 : (2 : Nat) ^ 63 = 9223372036854775808 := by norm_num
      have h64 : (2 : Nat) ^ 64 = 18446744073709551616 := by norm_num
      show exp.size + exp.align < 2 ^ 64
      unfold maxSizeForAlign isizeMax at hle
      omega

/-- C10: on a successful slow-path allocation, the alignment shift plus
the tracking offset plus the tracker's size fit inside `expanded_size`,
so the tracker write and the caller's region lie within the pool
block. -/
theorem C10_tracker_in_bounds (l exp : Layout) (off base : Nat)
    (h8 : 8 < l.align)
    (hext : l.extend trackerLayout = some (exp, off)) :
    alignOffset base exp.align + off + trackerLayout.size ≤ exp.size + exp.align := by
  obtain ⟨-, hsz, hal, -, -, -⟩ := Layout.extend_eq_some hext
  have hpos : 0 < exp.align := by
    have h8a : trackerLayout.align = 8 := rfl
    omega
  have hb := alignOffset_lt base hpos
  have h16 : trackerLayout.size = 16 := rfl
  omega

/-- C1: against the fully mocked, tracked Pool Source,
`deallocate(allocate(size, alignment), size, alignment)` on the bound
allocator restores the Pool Source's live set to its pre-allocation
value: every block obtained during the allocation is freed back. -/
theorem C1_roundtrip_restores_pool (addr : Nat) (l : Layout) (pool : MockState) (mem : Mem) :
    boot_services_dealloc (mockAllocator addr)
      (boot_services_alloc (mockAllocator addr) l pool mem).1 l
      (boot_services_alloc (mockAllocator addr) l pool mem).2.1
      (boot_services_alloc (mockAllocator addr) l pool mem).2.2 = some pool := by
  by_cases h8 : l.align ≤ 8
  · simp [boot_services_alloc, boot_services_dealloc, mockAllocator,
      BootServicesAllocator.init, BootServicesAllocator.new, mockBS, h8]
  · cases hext : l.extend trackerLayout with
    | none =>
      simp [boot_services_alloc, boot_services_dealloc, mockAllocator,
        BootServicesAllocator.init, BootServicesAllocator.new, mockBS, h8, hext]
    | some x =>
      obtain ⟨exp, off⟩ := x
      simp [boot_services_alloc, boot_services_dealloc, mockAllocator,
        BootServicesAllocator.init, BootServicesAllocator.new, mockBS, h8, hext,
        memRead, memWrite, List.lookup, ALLOC_TRACKER_SIG]

/-- Folding `configStep` over a sequence free of `init` operations
leaves the configuration unchanged. -/
theorem configStep_foldl_no_init (c : Option Nat) (ops : List AllocatorOp)
    (hnoinit : ∀ b, AllocatorOp.init b ∉ ops) :
    List.foldl configStep c ops = c := by
  induction ops generalizing c with
  | nil => rfl
  | cons o os ih =>
    have ho : ∀ b, AllocatorOp.init b ∉ os := fun b hb =>
      hnoinit b (List.mem_cons_of_mem _ hb)
    have hstep : configStep c o = c := by
      cases o with
      | init b => exact absurd (List.mem_cons_self _ _) (hnoinit b)
      | alloc l => rfl
      | dealloc p l => rfl
    rw [List.foldl_cons, hstep, ih _ ho]

/-- C8 counterexample: the claim that no subsequent `bind` changes the
bound handle fails on the code: `init` stores `Some` of its argument
unconditionally, so binding handle 1 and then handle 2 leaves the
configuration at handle 2, not handle 1. -/
theorem C8_rebind_changes_handle :
    configStep (configStep none (AllocatorOp.init 1)) (AllocatorOp.init 2) ≠
      configStep none (AllocatorOp.init 1) := by
  decide

/-- C8 (amended): the configuration starts as `None`; `allocate` and
`deallocate` never change it (they take `&self`), so any `init`-free
sequence leaves it untouched; and no operation at all returns a bound
configuration to the unbound state — only a later `init` can change the
handle, to its own argument. -/
theorem C8_config_lifecycle (σ : Type) (ops : List AllocatorOp) (h : Nat)
    (c : Option Nat) (op : AllocatorOp)
    (hnoinit : ∀ b, AllocatorOp.init b ∉ ops) :
    (BootServicesAllocator.new σ).boot_services = none ∧
    List.foldl configStep (some h) ops = some h ∧
    List.foldl configStep none ops = none ∧
    (c.isSome = true → (configStep c op).isSome = true) := by
  refine ⟨rfl, configStep_foldl_no_init _ _ hnoinit, configStep_foldl_no_init _ _ hnoinit, ?_⟩
  intro hc
  cases op with
  | init b => rfl
  | alloc l => exact hc
  | dealloc p l => exact hc

/-! ### Witnesses: each hypothesis-bearing claim theorem evaluated at a
concrete input. -/

/-- Witness for C5 at `size = 0x40`, `alignment = 8` on the mock. -/
theorem C5_fast_path_delegates_witness :
    ((mockBS 24).allocatePool BOOT_SERVICES_DATA 0x40 [] = some (24, [24]) →
      boot_services_alloc ⟨some (mockBS 24)⟩ ⟨0x40, 8⟩ ([] : MockState) [] = (24, [24], [])) ∧
    ((mockBS 24).allocatePool BOOT_SERVICES_DATA 0x40 [] = none →
      boot_services_alloc ⟨some (mockBS 24)⟩ ⟨0x40, 8⟩ ([] : MockState) [] = (0, [], [])) ∧
    boot_services_dealloc ⟨some (mockBS 24)⟩ 24 ⟨0x40, 8⟩ ([] : MockState) [] =
      some ((mockBS 24).freePool 24 []).2 :=
  C5_fast_path_delegates MockState (mockBS 24) ⟨0x40, 8⟩ 24 24 [] [24] [] (by decide)

/-- Witness for C3 at `size = 0x40`, `alignment = 0x1000`, base pointer
16: the tracker is found with the magic signature and base pointer. -/
theorem C3_tracker_written_witness :
    memRead (boot_services_alloc ⟨some (mockBS 16)⟩ ⟨0x40, 0x1000⟩ ([] : MockState) []).2.2
        ((boot_services_alloc ⟨some (mockBS 16)⟩ ⟨0x40, 0x1000⟩ ([] : MockState) []).1 + 0x40) =
      some ⟨ALLOC_TRACKER_SIG, 16⟩ :=
  C3_tracker_written MockState (mockBS 16) ⟨0x40, 0x1000⟩ ⟨0x50, 0x1000⟩ 0x40 16 [] [16] []
    (by decide) (by decide) (by decide)

/-- Witness for C4: a tracker with the magic signature stored at
`0x1000 + 0x40` makes `deallocate` free exactly its original pointer. -/
theorem C4_slow_dealloc_frees_tracked_witness :
    boot_services_dealloc ⟨some (mockBS 3)⟩ 0x1000 ⟨0x40, 0x1000⟩ ([0x100] : MockState)
        [(0x1040, ⟨ALLOC_TRACKER_SIG, 0x100⟩)] =
      if (⟨ALLOC_TRACKER_SIG, 0x100⟩ : AllocationTracker).signature = ALLOC_TRACKER_SIG then
        some ((mockBS 3).freePool 0x100 [0x100]).2
      else none :=
  C4_slow_dealloc_frees_tracked MockState (mockBS 3) ⟨0x40, 0x1000⟩ ⟨0x50, 0x1000⟩ 0x40 0x1000
    [0x100] [(0x1040, ⟨ALLOC_TRACKER_SIG, 0x100⟩)] ⟨ALLOC_TRACKER_SIG, 0x100⟩
    (by decide) (by decide) (by decide)

/-- Witness for C9: the status-honest and status-failing mocks are
indistinguishable through `deallocate`. -/
theorem C9_free_status_discarded_witness :
    boot_services_dealloc ⟨some (mockBS 5)⟩ 5 ⟨0x40, 8⟩ ([5] : MockState) [] =
      boot_services_dealloc ⟨some (mockBSFailStatus 5)⟩ 5 ⟨0x40, 8⟩ ([5] : MockState) [] :=
  C9_free_status_discarded MockState (mockBS 5) (mockBSFailStatus 5) ⟨0x40, 8⟩ 5 [5] []
    (fun p s => rfl)

/-- Witness for C2: `allocate(0x40, 0x1000)` with base pointer 8 returns
a 0x1000-aligned pointer. -/
theorem C2_slow_path_alignment_witness :
    (boot_services_alloc ⟨some (mockBS 8)⟩ ⟨0x40, 0x1000⟩ ([] : MockState) []).1 % 0x1000 = 0 :=
  C2_slow_path_alignment MockState (mockBS 8) ⟨0x40, 0x1000⟩ [] [] (by decide) (by decide)
    (by decide)

/-- Witness for C6 at `size = 2^63 - 1`, `alignment = 16`: the layout
extension overflows, and `allocate` returns the null sentinel leaving
the pool untouched. -/
theorem C6_no_overflow_witness :
    (Layout.extend ⟨2 ^ 63 - 1, 16⟩ trackerLayout = none →
      boot_services_alloc ⟨some (mockBS 8)⟩ ⟨2 ^ 63 - 1, 16⟩ ([] : MockState) [] = (0, [], [])) ∧
    expandedSizeNoWrap (Layout.extend ⟨2 ^ 63 - 1, 16⟩ trackerLayout) :=
  C6_no_overflow MockState (mockBS 8) ⟨2 ^ 63 - 1, 16⟩ [] [] (by decide)

/-- Witness for C10 at `size = 0x40`, `alignment = 0x1000`, base 8. -/
theorem C10_tracker_in_bounds_witness :
    alignOffset 8 0x1000 + 0x40 + trackerLayout.size ≤ 0x50 + 0x1000 :=
  C10_tracker_in_bounds ⟨0x40, 0x1000⟩ ⟨0x50, 0x1000⟩ 0x40 8 (by decide) (by decide)

/-- Witness for the amended C8 on a concrete `init`-free sequence. -/
theorem C8_config_lifecycle_witness :
    (BootServicesAllocator.new MockState).boot_services = none ∧
    List.foldl configStep (some 7)
      [AllocatorOp.alloc ⟨0x40, 8⟩, AllocatorOp.dealloc 5 ⟨0x40, 8⟩] = some 7 ∧
    List.foldl configStep none
      [AllocatorOp.alloc ⟨0x40, 8⟩, AllocatorOp.dealloc 5 ⟨0x40, 8⟩] = none ∧
    ((some 3 : Option Nat).isSome = true →
      (configStep (some 3) (AllocatorOp.init 9)).isSome = true) :=
  C8_config_lifecycle MockState [AllocatorOp.alloc ⟨0x40, 8⟩, AllocatorOp.dealloc 5 ⟨0x40, 8⟩]
    7 (some 3) (AllocatorOp.init 9) (by intro b; simp)

end UefiAlloc
